import Mathlib

/-!
Verification of the physics core of the NeonMomentum two-body collision
simulator (src/App.tsx, src/types.ts).

The engine advances two point masses on a bounded 1-D track:
explicit Euler integration, elastic wall reflection at the track ends,
a proximity-based contact predicate, a restitution-parametrized
collision formula, and a fixed midpoint separation after contact.
Numbers are modelled by exact rationals.
-/

namespace NeonMomentum

/-- The `BallState` record from types.ts: one point mass with its
presentation metadata. -/
structure BallState where
  id : ℤ
  mass : ℚ
  velocity : ℚ
  position : ℚ
  color : String
  radius : ℚ
deriving DecidableEq

/-- `TRACK_LENGTH = 10` (meters) from App.tsx. -/
def TRACK_LENGTH : ℚ := 10

/-- The pair of balls mutated by the physics loop (the `ballsRef.current`
record in App.tsx). -/
structure PhysicsState where
  b1 : BallState
  b2 : BallState
deriving DecidableEq

/-- Transcription of `calculatePhysics(dt)` from App.tsx, with the
restitution coefficient `e` (the `elasticity` state read inside the
function) passed explicitly.  The statement sequence of the source is
kept: Euler proposal, left-wall check for ball 1, right-wall check for
ball 2 (each clamping the proposed position and negating the velocity),
then the contact check `nextPos1 >= nextPos2 - 0.1` on the clamped
positions, the restitution velocity update, and the midpoint separation
by 0.06 on each side. -/
def calculatePhysics (e dt : ℚ) (s : PhysicsState) : PhysicsState :=
  let nextPos1 := s.b1.position + s.b1.velocity * dt
  let nextPos2 := s.b2.position + s.b2.velocity * dt
  let w1 : ℚ × ℚ := if nextPos1 ≤ 0 then (0, -s.b1.velocity) else (nextPos1, s.b1.velocity)
  let w2 : ℚ × ℚ :=
    if nextPos2 ≥ TRACK_LENGTH then (TRACK_LENGTH, -s.b2.velocity) else (nextPos2, s.b2.velocity)
  if w1.1 ≥ w2.1 - 0.1 then
    let m1 := s.b1.mass
    let m2 := s.b2.mass
    let v1 := w1.2
    let v2 := w2.2
    let newV1 := ((m1 - e * m2) * v1 + (1 + e) * m2 * v2) / (m1 + m2)
    let newV2 := ((1 + e) * m1 * v1 + (m2 - e * m1) * v2) / (m1 + m2)
    let midPoint := (w1.1 + w2.1) / 2
    { b1 := { s.b1 with velocity := newV1, position := midPoint - 0.06 },
      b2 := { s.b2 with velocity := newV2, position := midPoint + 0.06 } }
  else
    { b1 := { s.b1 with velocity := w1.2, position := w1.1 },
      b2 := { s.b2 with velocity := w2.2, position := w2.1 } }

/-- The Euler proposal `position + velocity * dt` computed at the top of
`calculatePhysics`. -/
def proposedPos (b : BallState) (dt : ℚ) : ℚ := b.position + b.velocity * dt

/-- The left-wall condition `nextPos1 <= 0` for ball 1. -/
def wall1Fires (dt : ℚ) (s : PhysicsState) : Prop := proposedPos s.b1 dt ≤ 0

/-- The right-wall condition `nextPos2 >= TRACK_LENGTH` for ball 2. -/
def wall2Fires (dt : ℚ) (s : PhysicsState) : Prop := proposedPos s.b2 dt ≥ TRACK_LENGTH

instance (dt : ℚ) (s : PhysicsState) : Decidable (wall1Fires dt s) :=
  inferInstanceAs (Decidable (proposedPos s.b1 dt ≤ 0))

instance (dt : ℚ) (s : PhysicsState) : Decidable (wall2Fires dt s) :=
  inferInstanceAs (Decidable (TRACK_LENGTH ≤ proposedPos s.b2 dt))

/-- Ball 1 position after the wall stage of `calculatePhysics`. -/
def postWallPos1 (dt : ℚ) (s : PhysicsState) : ℚ :=
  if proposedPos s.b1 dt ≤ 0 then 0 else proposedPos s.b1 dt

/-- Ball 1 velocity after the wall stage of `calculatePhysics`. -/
def postWallVel1 (dt : ℚ) (s : PhysicsState) : ℚ :=
  if proposedPos s.b1 dt ≤ 0 then -s.b1.velocity else s.b1.velocity

/-- Ball 2 position after the wall stage of `calculatePhysics`. -/
def postWallPos2 (dt : ℚ) (s : PhysicsState) : ℚ :=
  if proposedPos s.b2 dt ≥ TRACK_LENGTH then TRACK_LENGTH else proposedPos s.b2 dt

/-- Ball 2 velocity after the wall stage of `calculatePhysics`. -/
def postWallVel2 (dt : ℚ) (s : PhysicsState) : ℚ :=
  if proposedPos s.b2 dt ≥ TRACK_LENGTH then -s.b2.velocity else s.b2.velocity

/-- The contact predicate `nextPos1 >= nextPos2 - 0.1`, evaluated on the
wall-clamped proposed positions as in the source. -/
def contactFires (dt : ℚ) (s : PhysicsState) : Prop :=
  postWallPos1 dt s ≥ postWallPos2 dt s - 0.1

instance (dt : ℚ) (s : PhysicsState) : Decidable (contactFires dt s) :=
  inferInstanceAs (Decidable (postWallPos2 dt s - 0.1 ≤ postWallPos1 dt s))

/-- The restitution formula for the new velocity of ball 1
(`newV1` in the source). -/
def collisionV1 (m1 m2 e v1 v2 : ℚ) : ℚ :=
  ((m1 - e * m2) * v1 + (1 + e) * m2 * v2) / (m1 + m2)

/-- The restitution formula for the new velocity of ball 2
(`newV2` in the source). -/
def collisionV2 (m1 m2 e v1 v2 : ℚ) : ℚ :=
  ((1 + e) * m1 * v1 + (m2 - e * m1) * v2) / (m1 + m2)

/-- Total momentum `m1*v1 + m2*v2` as computed in `updateCharts`. -/
def momentumTotal (s : PhysicsState) : ℚ :=
  s.b1.mass * s.b1.velocity + s.b2.mass * s.b2.velocity

/-- Total kinetic energy `0.5*m1*v1**2 + 0.5*m2*v2**2` as computed in
`updateCharts`. -/
def keTotal (s : PhysicsState) : ℚ :=
  0.5 * s.b1.mass * s.b1.velocity ^ 2 + 0.5 * s.b2.mass * s.b2.velocity ^ 2

/-- Kinetic energy of a single body, `0.5 * mass * velocity ** 2`. -/
def kineticEnergy (m v : ℚ) : ℚ := 0.5 * m * v ^ 2

/-- Characterization of one step of `calculatePhysics` through the named
stage values: the contact branch rewrites both velocities with the
restitution formulas applied to the wall-stage velocities and both
positions to the midpoint of the wall-stage positions offset by 0.06;
the other branch commits the wall-stage values unchanged. -/
lemma calculatePhysics_eq (e dt : ℚ) (s : PhysicsState) :
    calculatePhysics e dt s =
      if contactFires dt s then
        { b1 := { s.b1 with
            velocity := collisionV1 s.b1.mass s.b2.mass e (postWallVel1 dt s) (postWallVel2 dt s),
            position := (postWallPos1 dt s + postWallPos2 dt s) / 2 - 0.06 },
          b2 := { s.b2 with
            velocity := collisionV2 s.b1.mass s.b2.mass e (postWallVel1 dt s) (postWallVel2 dt s),
            position := (postWallPos1 dt s + postWallPos2 dt s) / 2 + 0.06 } }
      else
        { b1 := { s.b1 with velocity := postWallVel1 dt s, position := postWallPos1 dt s },
          b2 := { s.b2 with velocity := postWallVel2 dt s, position := postWallPos2 dt s } } := by
  unfold calculatePhysics contactFires postWallPos1 postWallVel1 postWallPos2 postWallVel2
    proposedPos collisionV1 collisionV2
  rcases le_or_lt (s.b1.position + s.b1.velocity * dt) 0 with h1 | h1 <;>
    rcases le_or_lt TRACK_LENGTH (s.b2.position + s.b2.velocity * dt) with h2 | h2
  · simp [ge_iff_le, h1, h2]
  · simp [ge_iff_le, h1, not_le.mpr h2]
  · simp [ge_iff_le, not_le.mpr h1, h2]
  · simp [ge_iff_le, not_le.mpr h1, not_le.mpr h2]

/-- When the left wall does not fire, the wall stage leaves the velocity
of ball 1 unchanged. -/
lemma postWallVel1_of_not_fires (dt : ℚ) (s : PhysicsState) (h : ¬ wall1Fires dt s) :
    postWallVel1 dt s = s.b1.velocity := by
  unfold postWallVel1
  exact if_neg h

/-- When the right wall does not fire, the wall stage leaves the velocity
of ball 2 unchanged. -/
lemma postWallVel2_of_not_fires (dt : ℚ) (s : PhysicsState) (h : ¬ wall2Fires dt s) :
    postWallVel2 dt s = s.b2.velocity := by
  unfold postWallVel2
  exact if_neg h

/-- The wall stage at most negates the velocity of ball 1, so its square
is preserved. -/
lemma postWallVel1_sq (dt : ℚ) (s : PhysicsState) :
    (postWallVel1 dt s) ^ 2 = s.b1.velocity ^ 2 := by
  unfold postWallVel1
  split_ifs <;> ring

/-- The wall stage at most negates the velocity of ball 2, so its square
is preserved. -/
lemma postWallVel2_sq (dt : ℚ) (s : PhysicsState) :
    (postWallVel2 dt s) ^ 2 = s.b2.velocity ^ 2 := by
  unfold postWallVel2
  split_ifs <;> ring

/-- With a zero time delta the Euler proposal is the current position. -/
lemma proposedPos_zero (b : BallState) : proposedPos b 0 = b.position := by
  unfold proposedPos
  ring

/-- C10: every step of calculatePhysics modifies only the position and
velocity fields of the two bodies: mass, id, color and radius of each
body are identical before and after the step, whether or not a wall
reflection or a collision occurs. -/
theorem step_frame_condition (e dt : ℚ) (s : PhysicsState) :
    (calculatePhysics e dt s).b1.mass = s.b1.mass ∧
    (calculatePhysics e dt s).b1.id = s.b1.id ∧
    (calculatePhysics e dt s).b1.color = s.b1.color ∧
    (calculatePhysics e dt s).b1.radius = s.b1.radius ∧
    (calculatePhysics e dt s).b2.mass = s.b2.mass ∧
    (calculatePhysics e dt s).b2.id = s.b2.id ∧
    (calculatePhysics e dt s).b2.color = s.b2.color ∧
    (calculatePhysics e dt s).b2.radius = s.b2.radius := by
  rw [calculatePhysics_eq]
  split_ifs <;> simp

/-- C5: whenever the contact predicate fires, both final positions are
overwritten to the midpoint of the wall-adjusted proposed positions
offset by 0.06 on each side, so the post-resolution gap is exactly 0.12
for every restitution coefficient, and ball 1 ends strictly left of
ball 2. -/
theorem collision_separation_gap (e dt : ℚ) (s : PhysicsState) (hc : contactFires dt s) :
    (calculatePhysics e dt s).b1.position
        = (postWallPos1 dt s + postWallPos2 dt s) / 2 - 0.06 ∧
    (calculatePhysics e dt s).b2.position
        = (postWallPos1 dt s + postWallPos2 dt s) / 2 + 0.06 ∧
    (calculatePhysics e dt s).b2.position - (calculatePhysics e dt s).b1.position = 0.12 ∧
    (calculatePhysics e dt s).b1.position < (calculatePhysics e dt s).b2.position := by
  rw [calculatePhysics_eq, if_pos hc]
  refine ⟨rfl, rfl, by ring, ?_⟩
  simp only
  linarith

/-- Witness for collision_separation_gap: a concrete colliding step
(the two balls approach head on inside the contact margin). -/
theorem collision_separation_gap_witness :
    contactFires 0.01 ⟨⟨1, 2, 3, 4.95, "cyan", 0.5⟩, ⟨2, 2, -2, 5.03, "fuchsia", 0.5⟩⟩ ∧
    (calculatePhysics 1 0.01
        ⟨⟨1, 2, 3, 4.95, "cyan", 0.5⟩, ⟨2, 2, -2, 5.03, "fuchsia", 0.5⟩⟩).b2.position -
      (calculatePhysics 1 0.01
        ⟨⟨1, 2, 3, 4.95, "cyan", 0.5⟩, ⟨2, 2, -2, 5.03, "fuchsia", 0.5⟩⟩).b1.position = 0.12 := by
  have hc : contactFires 0.01 ⟨⟨1, 2, 3, 4.95, "cyan", 0.5⟩, ⟨2, 2, -2, 5.03, "fuchsia", 0.5⟩⟩ := by
    norm_num [contactFires, postWallPos1, postWallPos2, proposedPos, TRACK_LENGTH]
  exact ⟨hc, (collision_separation_gap 1 0.01 _ hc).2.2.1⟩

/-- C2: whenever the contact predicate fires, the new velocities are
exactly the restitution formulas applied to the wall-stage velocities;
in particular for m1 = m2 = 2, v1 = 3, v2 = -2 the formulas give
(-2, 3) at e = 1 and (0.5, 0.5) at e = 0. -/
theorem collision_velocity_formula (e dt : ℚ) (s : PhysicsState) (hc : contactFires dt s) :
    ((calculatePhysics e dt s).b1.velocity =
        ((s.b1.mass - e * s.b2.mass) * postWallVel1 dt s
          + (1 + e) * s.b2.mass * postWallVel2 dt s) / (s.b1.mass + s.b2.mass) ∧
      (calculatePhysics e dt s).b2.velocity =
        ((1 + e) * s.b1.mass * postWallVel1 dt s
          + (s.b2.mass - e * s.b1.mass) * postWallVel2 dt s) / (s.b1.mass + s.b2.mass)) ∧
    collisionV1 2 2 1 3 (-2) = -2 ∧ collisionV2 2 2 1 3 (-2) = 3 ∧
    collisionV1 2 2 0 3 (-2) = 0.5 ∧ collisionV2 2 2 0 3 (-2) = 0.5 := by
  rw [calculatePhysics_eq, if_pos hc]
  refine ⟨⟨rfl, rfl⟩, ?_, ?_, ?_, ?_⟩ <;> norm_num [collisionV1, collisionV2]

/-- Witness for collision_velocity_formula: the reference scenario at the
moment of contact (equal masses, elastic) exchanges the velocities. -/
theorem collision_velocity_formula_witness :
    contactFires 0.01 ⟨⟨1, 2, 3, 4.95, "cyan", 0.5⟩, ⟨2, 2, -2, 5.03, "fuchsia", 0.5⟩⟩ ∧
    (calculatePhysics 1 0.01
        ⟨⟨1, 2, 3, 4.95, "cyan", 0.5⟩, ⟨2, 2, -2, 5.03, "fuchsia", 0.5⟩⟩).b1.velocity = -2 ∧
    (calculatePhysics 1 0.01
        ⟨⟨1, 2, 3, 4.95, "cyan", 0.5⟩, ⟨2, 2, -2, 5.03, "fuchsia", 0.5⟩⟩).b2.velocity = 3 := by
  have hc : contactFires 0.01 ⟨⟨1, 2, 3, 4.95, "cyan", 0.5⟩, ⟨2, 2, -2, 5.03, "fuchsia", 0.5⟩⟩ := by
    norm_num [contactFires, postWallPos1, postWallPos2, proposedPos, TRACK_LENGTH]
  obtain ⟨⟨h1, h2⟩, -⟩ := collision_velocity_formula 1 0.01 _ hc
  refine ⟨hc, ?_, ?_⟩
  · rw [h1]
    norm_num [postWallVel1, postWallVel2, proposedPos, TRACK_LENGTH]
  · rw [h2]
    norm_num [postWallVel1, postWallVel2, proposedPos, TRACK_LENGTH]

/-- C1: for a step in which the contact predicate fires and neither wall
reflection fires, the collision update conserves total momentum for
every restitution coefficient in [0, 1]; and when the contact predicate
does not fire, the collision stage leaves each body velocity (hence its
momentum) unchanged from the wall-stage value. -/
theorem step_conserves_momentum (e dt : ℚ) (s : PhysicsState)
    (he0 : 0 ≤ e) (he1 : e ≤ 1)
    (hm1 : 0 < s.b1.mass) (hm2 : 0 < s.b2.mass) :
    (¬ wall1Fires dt s → ¬ wall2Fires dt s → contactFires dt s →
      momentumTotal (calculatePhysics e dt s) = momentumTotal s) ∧
    (¬ contactFires dt s →
      (calculatePhysics e dt s).b1.velocity = postWallVel1 dt s ∧
      (calculatePhysics e dt s).b2.velocity = postWallVel2 dt s ∧
      (calculatePhysics e dt s).b1.mass * (calculatePhysics e dt s).b1.velocity
        = s.b1.mass * postWallVel1 dt s ∧
      (calculatePhysics e dt s).b2.mass * (calculatePhysics e dt s).b2.velocity
        = s.b2.mass * postWallVel2 dt s) := by
  constructor
  · intro hw1 hw2 hc
    rw [calculatePhysics_eq, if_pos hc]
    unfold momentumTotal
    simp only
    rw [postWallVel1_of_not_fires dt s hw1, postWallVel2_of_not_fires dt s hw2]
    unfold collisionV1 collisionV2
    have hsum : s.b1.mass + s.b2.mass ≠ 0 := by positivity
    field_simp
    ring
  · intro hc
    rw [calculatePhysics_eq, if_neg hc]
    exact ⟨rfl, rfl, rfl, rfl⟩

/-- Witness for step_conserves_momentum: a concrete colliding step away
from both walls, with e = 0.5, conserves the total momentum 2. -/
theorem step_conserves_momentum_witness :
    momentumTotal (calculatePhysics 0.5 0.01
        ⟨⟨1, 2, 3, 4.95, "cyan", 0.5⟩, ⟨2, 2, -2, 5.03, "fuchsia", 0.5⟩⟩)
      = momentumTotal ⟨⟨1, 2, 3, 4.95, "cyan", 0.5⟩, ⟨2, 2, -2, 5.03, "fuchsia", 0.5⟩⟩ := by
  have h := (step_conserves_momentum 0.5 0.01
      ⟨⟨1, 2, 3, 4.95, "cyan", 0.5⟩, ⟨2, 2, -2, 5.03, "fuchsia", 0.5⟩⟩
      (by norm_num) (by norm_num) (by norm_num) (by norm_num)).1
  exact h
    (by norm_num [wall1Fires, proposedPos])
    (by norm_num [wall2Fires, proposedPos, TRACK_LENGTH])
    (by norm_num [contactFires, postWallPos1, postWallPos2, proposedPos, TRACK_LENGTH])

/-- C6: the wall stage clamps a crossing body exactly to its boundary and
exactly negates its velocity (ball 1 against 0, ball 2 against the track
length), passes a non-crossing body through unchanged, and never changes
a body kinetic energy. -/
theorem boundary_reflection (dt : ℚ) (s : PhysicsState) :
    (wall1Fires dt s → postWallPos1 dt s = 0 ∧ postWallVel1 dt s = -s.b1.velocity) ∧
    (wall2Fires dt s → postWallPos2 dt s = TRACK_LENGTH ∧ postWallVel2 dt s = -s.b2.velocity) ∧
    (¬ wall1Fires dt s →
      postWallPos1 dt s = proposedPos s.b1 dt ∧ postWallVel1 dt s = s.b1.velocity) ∧
    (¬ wall2Fires dt s →
      postWallPos2 dt s = proposedPos s.b2 dt ∧ postWallVel2 dt s = s.b2.velocity) ∧
    kineticEnergy s.b1.mass (postWallVel1 dt s) = kineticEnergy s.b1.mass s.b1.velocity ∧
    kineticEnergy s.b2.mass (postWallVel2 dt s) = kineticEnergy s.b2.mass s.b2.velocity := by
  refine ⟨fun h => ⟨if_pos h, if_pos h⟩, fun h => ⟨if_pos h, if_pos h⟩,
    fun h => ⟨if_neg h, if_neg h⟩, fun h => ⟨if_neg h, if_neg h⟩, ?_, ?_⟩
  · unfold kineticEnergy
    rw [postWallVel1_sq]
  · unfold kineticEnergy
    rw [postWallVel2_sq]

/-- Witness for boundary_reflection: a step in which ball 1 crosses the
left wall and ball 2 crosses the right wall; both are clamped and both
velocities are negated. -/
theorem boundary_reflection_witness :
    wall1Fires 0.1 ⟨⟨1, 2, -20, 1, "cyan", 0.5⟩, ⟨2, 2, 20, 9, "fuchsia", 0.5⟩⟩ ∧
    wall2Fires 0.1 ⟨⟨1, 2, -20, 1, "cyan", 0.5⟩, ⟨2, 2, 20, 9, "fuchsia", 0.5⟩⟩ ∧
    postWallPos1 0.1 ⟨⟨1, 2, -20, 1, "cyan", 0.5⟩, ⟨2, 2, 20, 9, "fuchsia", 0.5⟩⟩ = 0 ∧
    postWallVel1 0.1 ⟨⟨1, 2, -20, 1, "cyan", 0.5⟩, ⟨2, 2, 20, 9, "fuchsia", 0.5⟩⟩ = 20 ∧
    postWallPos2 0.1 ⟨⟨1, 2, -20, 1, "cyan", 0.5⟩, ⟨2, 2, 20, 9, "fuchsia", 0.5⟩⟩ = TRACK_LENGTH ∧
    postWallVel2 0.1 ⟨⟨1, 2, -20, 1, "cyan", 0.5⟩, ⟨2, 2, 20, 9, "fuchsia", 0.5⟩⟩ = -20 := by
  have hw1 : wall1Fires 0.1 ⟨⟨1, 2, -20, 1, "cyan", 0.5⟩, ⟨2, 2, 20, 9, "fuchsia", 0.5⟩⟩ := by
    norm_num [wall1Fires, proposedPos]
  have hw2 : wall2Fires 0.1 ⟨⟨1, 2, -20, 1, "cyan", 0.5⟩, ⟨2, 2, 20, 9, "fuchsia", 0.5⟩⟩ := by
    norm_num [wall2Fires, proposedPos, TRACK_LENGTH]
  obtain ⟨h1, h2, -, -, -, -⟩ :=
    boundary_reflection 0.1 ⟨⟨1, 2, -20, 1, "cyan", 0.5⟩, ⟨2, 2, 20, 9, "fuchsia", 0.5⟩⟩
  obtain ⟨h1p, h1v⟩ := h1 hw1
  obtain ⟨h2p, h2v⟩ := h2 hw2
  refine ⟨hw1, hw2, h1p, ?_, h2p, ?_⟩
  · rw [h1v]
    try norm_num
  · rw [h2v]
    try norm_num

/-- The kinetic energy lost by the restitution update, in closed form:
the loss is proportional to (1 - e^2) and to the squared relative
velocity. -/
lemma keDrop (m1 m2 e u1 u2 : ℚ) (h : m1 + m2 ≠ 0) :
    (0.5 * m1 * u1 ^ 2 + 0.5 * m2 * u2 ^ 2)
      - (0.5 * m1 * (collisionV1 m1 m2 e u1 u2) ^ 2
          + 0.5 * m2 * (collisionV2 m1 m2 e u1 u2) ^ 2)
      = m1 * m2 * (1 - e ^ 2) * (u1 - u2) ^ 2 / (2 * (m1 + m2)) := by
  unfold collisionV1 collisionV2
  field_simp
  ring

/-- C3 counterexample: a collision resolved by calculatePhysics with
positive masses and e = 0 in which kinetic energy is exactly preserved,
refuting that equality holds only when e = 1 (the two bodies drift into
the contact margin with equal velocities, here both zero). -/
theorem energy_equality_not_only_elastic :
    (0 : ℚ) < (2 : ℚ) ∧ (0 : ℚ) ≠ 1 ∧
    contactFires 0.1 ⟨⟨1, 2, 0, 5, "cyan", 0.5⟩, ⟨2, 2, 0, 5.05, "fuchsia", 0.5⟩⟩ ∧
    keTotal (calculatePhysics 0 0.1 ⟨⟨1, 2, 0, 5, "cyan", 0.5⟩, ⟨2, 2, 0, 5.05, "fuchsia", 0.5⟩⟩)
      = keTotal ⟨⟨1, 2, 0, 5, "cyan", 0.5⟩, ⟨2, 2, 0, 5.05, "fuchsia", 0.5⟩⟩ := by
  refine ⟨by norm_num, by norm_num, ?_, ?_⟩
  · norm_num [contactFires, postWallPos1, postWallPos2, proposedPos, TRACK_LENGTH]
  · norm_num [keTotal, calculatePhysics, TRACK_LENGTH]

/-- C3 amended: for every collision resolved by calculatePhysics with
positive masses and e in [0, 1], the post-collision total kinetic energy
is at most the pre-collision total kinetic energy, and equality holds if
and only if e = 1 or the two (possibly wall-flipped) pre-collision
velocities are equal. -/
theorem energy_nonincrease (e dt : ℚ) (s : PhysicsState)
    (hm1 : 0 < s.b1.mass) (hm2 : 0 < s.b2.mass)
    (he0 : 0 ≤ e) (he1 : e ≤ 1) (hc : contactFires dt s) :
    keTotal (calculatePhysics e dt s) ≤ keTotal s ∧
    (keTotal (calculatePhysics e dt s) = keTotal s ↔
      e = 1 ∨ postWallVel1 dt s = postWallVel2 dt s) := by
  have hsum : s.b1.mass + s.b2.mass ≠ 0 := by positivity
  have hkA : keTotal (calculatePhysics e dt s)
      = 0.5 * s.b1.mass * (collisionV1 s.b1.mass s.b2.mass e
            (postWallVel1 dt s) (postWallVel2 dt s)) ^ 2
        + 0.5 * s.b2.mass * (collisionV2 s.b1.mass s.b2.mass e
            (postWallVel1 dt s) (postWallVel2 dt s)) ^ 2 := by
    rw [calculatePhysics_eq, if_pos hc]
    unfold keTotal
    simp only
  have hkS : keTotal s
      = 0.5 * s.b1.mass * (postWallVel1 dt s) ^ 2
        + 0.5 * s.b2.mass * (postWallVel2 dt s) ^ 2 := by
    unfold keTotal
    rw [postWallVel1_sq, postWallVel2_sq]
  have hdrop : keTotal s - keTotal (calculatePhysics e dt s)
      = s.b1.mass * s.b2.mass * (1 - e ^ 2) * (postWallVel1 dt s - postWallVel2 dt s) ^ 2
          / (2 * (s.b1.mass + s.b2.mass)) := by
    rw [hkA, hkS]
    exact keDrop s.b1.mass s.b2.mass e (postWallVel1 dt s) (postWallVel2 dt s) hsum
  have h1e : 0 ≤ 1 - e ^ 2 := by nlinarith
  have hnum : 0 ≤ s.b1.mass * s.b2.mass * (1 - e ^ 2)
      * (postWallVel1 dt s - postWallVel2 dt s) ^ 2 :=
    mul_nonneg (mul_nonneg (mul_pos hm1 hm2).le h1e) (sq_nonneg _)
  have hden : (0 : ℚ) < 2 * (s.b1.mass + s.b2.mass) := by linarith
  constructor
  · have := div_nonneg hnum hden.le
    linarith [hdrop, this]
  · constructor
    · intro heq
      have h0 : s.b1.mass * s.b2.mass * (1 - e ^ 2)
          * (postWallVel1 dt s - postWallVel2 dt s) ^ 2
          / (2 * (s.b1.mass + s.b2.mass)) = 0 := by
        rw [← hdrop, heq]
        ring
      have hnum0 : s.b1.mass * s.b2.mass * (1 - e ^ 2)
          * (postWallVel1 dt s - postWallVel2 dt s) ^ 2 = 0 := by
        rcases div_eq_zero_iff.mp h0 with h | h
        · exact h
        · exact absurd h hden.ne'
      rcases mul_eq_zero.mp hnum0 with h | h
      · rcases mul_eq_zero.mp h with h | h
        · exact absurd h (mul_pos hm1 hm2).ne'
        · left
          have hfac : (e - 1) * (e + 1) = 0 := by nlinarith
          rcases mul_eq_zero.mp hfac with h2 | h2
          · linarith
          · linarith
      · right
        have := sq_eq_zero_iff.mp h
        linarith
    · intro h
      rcases h with h | h
      · have hz : 1 - e ^ 2 = 0 := by
          rw [h]
          ring
        have : keTotal s - keTotal (calculatePhysics e dt s) = 0 := by
          rw [hdrop, hz]
          ring
        linarith
      · have hz : (postWallVel1 dt s - postWallVel2 dt s) ^ 2 = 0 := by
          rw [h]
          ring
        have : keTotal s - keTotal (calculatePhysics e dt s) = 0 := by
          rw [hdrop, hz]
          ring
        linarith

/-- Witness for energy_nonincrease: a concrete colliding step with
e = 0.3 strictly dissipates, so the non-increase inequality holds. -/
theorem energy_nonincrease_witness :
    keTotal (calculatePhysics 0.3 0.01
        ⟨⟨1, 2, 3, 4.95, "cyan", 0.5⟩, ⟨2, 2, -2, 5.03, "fuchsia", 0.5⟩⟩)
      ≤ keTotal ⟨⟨1, 2, 3, 4.95, "cyan", 0.5⟩, ⟨2, 2, -2, 5.03, "fuchsia", 0.5⟩⟩ :=
  (energy_nonincrease 0.3 0.01
      ⟨⟨1, 2, 3, 4.95, "cyan", 0.5⟩, ⟨2, 2, -2, 5.03, "fuchsia", 0.5⟩⟩
      (by norm_num) (by norm_num) (by norm_num) (by norm_num)
      (by norm_num [contactFires, postWallPos1, postWallPos2, proposedPos, TRACK_LENGTH])).1

/-- A state with both bodies inside the track, body 1 resting on the left
wall and body 2 just 0.05 meters to its right. -/
def nearWallState : PhysicsState :=
  ⟨⟨1, 2, -1, 0, "cyan", 0.5⟩, ⟨2, 2, 0, 0.05, "fuchsia", 0.5⟩⟩

/-- C4: evaluation at a failing input.  Starting with both positions in
[0, trackLength], one step of calculatePhysics (wall reflection of
body 1 followed by the collision separation) leaves body 1 at position
-0.035, outside the track, contradicting the claimed invariant. -/
theorem separation_escapes_track :
    (0 ≤ nearWallState.b1.position ∧ nearWallState.b1.position ≤ TRACK_LENGTH) ∧
    (0 ≤ nearWallState.b2.position ∧ nearWallState.b2.position ≤ TRACK_LENGTH) ∧
    (calculatePhysics 1 0.1 nearWallState).b1.position = -0.035 ∧
    (calculatePhysics 1 0.1 nearWallState).b1.position < 0 := by
  have hc : contactFires 0.1 nearWallState := by
    norm_num [contactFires, postWallPos1, postWallPos2, proposedPos, TRACK_LENGTH, nearWallState]
  have h := calculatePhysics_eq 1 0.1 nearWallState
  rw [if_pos hc] at h
  refine ⟨⟨?_, ?_⟩, ⟨?_, ?_⟩, ?_, ?_⟩
  · norm_num [nearWallState]
  · norm_num [nearWallState, TRACK_LENGTH]
  · norm_num [nearWallState]
  · norm_num [nearWallState, TRACK_LENGTH]
  · rw [h]
    norm_num [nearWallState, postWallPos1, postWallPos2, proposedPos, TRACK_LENGTH]
  · rw [h]
    norm_num [nearWallState, postWallPos1, postWallPos2, proposedPos, TRACK_LENGTH]

/-- Boundary Resolver for the left end, following the spec wording:
clamp a crossing proposed position to 0 and invert the velocity sign,
otherwise pass through. -/
def boundaryResolveLeft (p v : ℚ) : ℚ × ℚ :=
  if p ≤ 0 then (0, -v) else (p, v)

/-- Boundary Resolver for the right end, following the spec wording:
clamp a crossing proposed position to the track length and invert the
velocity sign, otherwise pass through. -/
def boundaryResolveRight (trackLength p v : ℚ) : ℚ × ℚ :=
  if p ≥ trackLength then (trackLength, -v) else (p, v)

/-- Collision Resolver, following the spec wording: if the left body is
within the 0.1 contact margin of the right body, recompute both
velocities with the restitution formulas and place the bodies at the
midpoint offset by 0.06 each way; otherwise pass everything through.
Returns ((pos1, vel1), (pos2, vel2)). -/
def collisionResolve (e m1 m2 p1 v1 p2 v2 : ℚ) : (ℚ × ℚ) × (ℚ × ℚ) :=
  if p1 ≥ p2 - 0.1 then
    (((p1 + p2) / 2 - 0.06, collisionV1 m1 m2 e v1 v2),
     ((p1 + p2) / 2 + 0.06, collisionV2 m1 m2 e v1 v2))
  else ((p1, v1), (p2, v2))

/-- The Simulation Step Orchestrator of the spec: Euler proposals, then
the two Boundary Resolvers applied independently, then the Collision
Resolver on the boundary-adjusted positions and boundary-flipped
velocities, then commit. -/
def stepOrchestrated (e dt : ℚ) (s : PhysicsState) : PhysicsState :=
  let q1 := proposedPos s.b1 dt
  let q2 := proposedPos s.b2 dt
  let w1 := boundaryResolveLeft q1 s.b1.velocity
  let w2 := boundaryResolveRight TRACK_LENGTH q2 s.b2.velocity
  let r := collisionResolve e s.b1.mass s.b2.mass w1.1 w1.2 w2.1 w2.2
  { b1 := { s.b1 with position := r.1.1, velocity := r.1.2 },
    b2 := { s.b2 with position := r.2.1, velocity := r.2.2 } }

/-- C7: calculatePhysics is exactly the staged pipeline in which boundary
resolution precedes collision detection; in particular, when a left-wall
crossing and body-body contact occur in the same step, the collision
formula consumes the wall-flipped velocity of body 1 and the contact
midpoint uses its wall-clamped position 0. -/
theorem step_ordering_boundary_before_collision (e dt : ℚ) (s : PhysicsState) :
    calculatePhysics e dt s = stepOrchestrated e dt s ∧
    (wall1Fires dt s → contactFires dt s →
      (calculatePhysics e dt s).b1.velocity
        = collisionV1 s.b1.mass s.b2.mass e (-s.b1.velocity) (postWallVel2 dt s) ∧
      (calculatePhysics e dt s).b1.position
        = (0 + postWallPos2 dt s) / 2 - 0.06) := by
  constructor
  · unfold calculatePhysics stepOrchestrated boundaryResolveLeft boundaryResolveRight
      collisionResolve collisionV1 collisionV2 proposedPos
    rcases le_or_lt (s.b1.position + s.b1.velocity * dt) 0 with h1 | h1 <;>
      rcases le_or_lt TRACK_LENGTH (s.b2.position + s.b2.velocity * dt) with h2 | h2
    · simp [ge_iff_le, h1, h2]
      split_ifs <;> rfl
    · simp [ge_iff_le, h1, not_le.mpr h2]
      split_ifs <;> rfl
    · simp [ge_iff_le, not_le.mpr h1, h2]
      split_ifs <;> rfl
    · simp [ge_iff_le, not_le.mpr h1, not_le.mpr h2]
      split_ifs <;> rfl
  · intro hw hc
    rw [calculatePhysics_eq, if_pos hc]
    have hv : postWallVel1 dt s = -s.b1.velocity := if_pos hw
    have hp : postWallPos1 dt s = 0 := if_pos hw
    exact ⟨by rw [← hv], by rw [← hp]⟩

/-- Witness for step_ordering_boundary_before_collision: a step where
body 1 crosses the left wall while in contact with body 2; the collision
input velocity for body 1 is its flipped value. -/
theorem step_ordering_witness :
    wall1Fires 0.1 nearWallState ∧ contactFires 0.1 nearWallState ∧
    calculatePhysics 1 0.1 nearWallState = stepOrchestrated 1 0.1 nearWallState ∧
    (calculatePhysics 1 0.1 nearWallState).b1.velocity
      = collisionV1 nearWallState.b1.mass nearWallState.b2.mass 1
          (-nearWallState.b1.velocity) (postWallVel2 0.1 nearWallState) := by
  have hw : wall1Fires 0.1 nearWallState := by
    norm_num [wall1Fires, proposedPos, nearWallState]
  have hc : contactFires 0.1 nearWallState := by
    norm_num [contactFires, postWallPos1, postWallPos2, proposedPos, TRACK_LENGTH, nearWallState]
  obtain ⟨heq, himp⟩ := step_ordering_boundary_before_collision 1 0.1 nearWallState
  exact ⟨hw, hc, heq, (himp hw hc).1⟩

/-- C8 counterexample: with dt = 0 the step is not a no-op.  First, a
state already inside the contact margin has both positions rewritten by
the separation logic; second, a body resting exactly on its wall has its
velocity negated even though the contact predicate is false at entry. -/
theorem zero_dt_not_noop :
    ((calculatePhysics 1 0
        ⟨⟨1, 2, 3, 5, "cyan", 0.5⟩, ⟨2, 2, -2, 5.05, "fuchsia", 0.5⟩⟩).b1.position
      ≠ (5 : ℚ)) ∧
    (¬ ((0 : ℚ) ≥ 5 - 0.1) ∧
      (calculatePhysics 1 0
        ⟨⟨1, 2, 3, 0, "cyan", 0.5⟩, ⟨2, 2, -2, 5, "fuchsia", 0.5⟩⟩).b1.velocity ≠ (3 : ℚ)) := by
  refine ⟨?_, by norm_num, ?_⟩
  · norm_num [calculatePhysics, TRACK_LENGTH]
  · norm_num [calculatePhysics, TRACK_LENGTH]

/-- C8 amended: a step with dt = 0, entry positions inside
[0, trackLength] and the contact predicate false at the entry positions
leaves both positions unchanged, and leaves a body velocity unchanged
provided that body is not resting exactly on its own wall (a body at
position 0, respectively trackLength, has its velocity negated by the
wall check even at dt = 0; a state inside the contact margin has its
positions rewritten by the separation logic). -/
theorem zero_dt_noop_outside_contact (e : ℚ) (s : PhysicsState)
    (h1 : 0 ≤ s.b1.position) (h2 : s.b2.position ≤ TRACK_LENGTH)
    (hnc : ¬ s.b1.position ≥ s.b2.position - 0.1) :
    (calculatePhysics e 0 s).b1.position = s.b1.position ∧
    (calculatePhysics e 0 s).b2.position = s.b2.position ∧
    (0 < s.b1.position → (calculatePhysics e 0 s).b1.velocity = s.b1.velocity) ∧
    (s.b2.position < TRACK_LENGTH → (calculatePhysics e 0 s).b2.velocity = s.b2.velocity) := by
  have hp1 : postWallPos1 0 s = s.b1.position := by
    unfold postWallPos1
    rw [proposedPos_zero]
    split_ifs with h
    · linarith
    · rfl
  have hp2 : postWallPos2 0 s = s.b2.position := by
    unfold postWallPos2
    rw [proposedPos_zero]
    split_ifs with h
    · rw [ge_iff_le] at h
      linarith
    · rfl
  have hnc0 : ¬ contactFires 0 s := by
    unfold contactFires
    rw [hp1, hp2]
    exact hnc
  rw [calculatePhysics_eq, if_neg hnc0]
  refine ⟨hp1, hp2, ?_, ?_⟩
  · intro hpos
    simp only
    unfold postWallVel1
    rw [proposedPos_zero, if_neg (by linarith)]
  · intro hpos
    simp only
    unfold postWallVel2
    rw [proposedPos_zero, if_neg (by rw [ge_iff_le]; push_neg; linarith)]

/-- Witness for zero_dt_noop_outside_contact: the reference initial state
with dt = 0 is left entirely unchanged. -/
theorem zero_dt_noop_witness :
    (calculatePhysics 1 0
        ⟨⟨1, 2, 3, 2, "cyan", 0.5⟩, ⟨2, 2, -2, 8, "fuchsia", 0.5⟩⟩).b1.position = 2 ∧
    (calculatePhysics 1 0
        ⟨⟨1, 2, 3, 2, "cyan", 0.5⟩, ⟨2, 2, -2, 8, "fuchsia", 0.5⟩⟩).b2.position = 8 ∧
    (calculatePhysics 1 0
        ⟨⟨1, 2, 3, 2, "cyan", 0.5⟩, ⟨2, 2, -2, 8, "fuchsia", 0.5⟩⟩).b1.velocity = 3 ∧
    (calculatePhysics 1 0
        ⟨⟨1, 2, 3, 2, "cyan", 0.5⟩, ⟨2, 2, -2, 8, "fuchsia", 0.5⟩⟩).b2.velocity = -2 := by
  obtain ⟨hq1, hq2, hv1, hv2⟩ := zero_dt_noop_outside_contact 1
      ⟨⟨1, 2, 3, 2, "cyan", 0.5⟩, ⟨2, 2, -2, 8, "fuchsia", 0.5⟩⟩
      (by norm_num) (by norm_num [TRACK_LENGTH]) (by norm_num)
  exact ⟨hq1, hq2, hv1 (by norm_num), hv2 (by norm_num [TRACK_LENGTH])⟩

/-- The `AnalysisStatus` enumeration from types.ts. -/
inductive AnalysisStatus where
  | IDLE
  | LOADING
  | SUCCESS
  | ERROR
deriving DecidableEq

/-- The `SimulationDataPoint` record from types.ts (one chart sample). -/
structure SimulationDataPoint where
  time : ℚ
  v1 : ℚ
  v2 : ℚ
  totalMomentum : ℚ
  totalKineticEnergy : ℚ
deriving DecidableEq

/-- The React state of the App component that `handleReset` touches:
playback flag, displayed time, accumulated time ref, restitution slider,
the two ball states, the physics ref pair, the chart history and the AI
analysis state. -/
structure AppState where
  isPlaying : Bool
  time : ℚ
  totalTime : ℚ
  elasticity : ℚ
  ball1 : BallState
  ball2 : BallState
  balls : PhysicsState
  dataHistory : List SimulationDataPoint
  analysis : String
  analysisStatus : AnalysisStatus
  initialStateSnapshot : Option (ℚ × ℚ)
deriving DecidableEq

/-- The initial value of the `ball1` state in App.tsx. -/
def initialBall1 : BallState :=
  { id := 1, mass := 2, velocity := 3, position := 2, color := "cyan", radius := 0.5 }

/-- The initial value of the `ball2` state in App.tsx. -/
def initialBall2 : BallState :=
  { id := 2, mass := 2, velocity := -2, position := 8, color := "fuchsia", radius := 0.5 }

/-- Transcription of `handleReset` from App.tsx: stop playback, zero both
time values, spread the CURRENT ball states overriding only position and
velocity with the built-in initial values, mirror that pair into the
physics ref, clear the chart history and the AI analysis state. -/
def handleReset (s : AppState) : AppState :=
  { s with
    isPlaying := false,
    time := 0,
    totalTime := 0,
    ball1 := { s.ball1 with position := 2, velocity := 3 },
    ball2 := { s.ball2 with position := 8, velocity := -2 },
    balls := { b1 := { s.ball1 with position := 2, velocity := 3 },
               b2 := { s.ball2 with position := 8, velocity := -2 } },
    dataHistory := [],
    analysis := "",
    analysisStatus := AnalysisStatus.IDLE,
    initialStateSnapshot := none }

/-- A paused session in which the user has raised the mass of ball 1 to
5 kg and some time has elapsed. -/
def heavySession : AppState :=
  { isPlaying := false, time := 3, totalTime := 3, elasticity := 1,
    ball1 := { initialBall1 with mass := 5 },
    ball2 := initialBall2,
    balls := ⟨{ initialBall1 with mass := 5 }, initialBall2⟩,
    dataHistory := [], analysis := "", analysisStatus := AnalysisStatus.IDLE,
    initialStateSnapshot := none }

/-- C9 counterexample: handleReset does not restore the bodies to the
initial values: it keeps the current mass (here 5 kg instead of the
initial 2 kg), so the reset of the bodies is incomplete even though time
and history are reset. -/
theorem reset_keeps_mass :
    (handleReset heavySession).ball1.mass = 5 ∧
    initialBall1.mass = 2 ∧
    (handleReset heavySession).ball1 ≠ initialBall1 ∧
    (handleReset heavySession).time = 0 ∧
    (handleReset heavySession).dataHistory = [] := by
  refine ⟨rfl, rfl, ?_, rfl, rfl⟩
  intro h
  have hm := congrArg BallState.mass h
  norm_num [handleReset, heavySession, initialBall1] at hm

/-- C9 amended: after handleReset, elapsed time is 0, the sample history
is empty, playback is stopped, and each body has its position and
velocity reset to the fixed built-in initial values (2, 3 for body 1 and
8, -2 for body 2) while retaining its current mass and presentation
fields; the physics ref holds the same pair. -/
theorem reset_state (s : AppState) :
    (handleReset s).time = 0 ∧
    (handleReset s).totalTime = 0 ∧
    (handleReset s).dataHistory = [] ∧
    (handleReset s).isPlaying = false ∧
    (handleReset s).ball1 = { s.ball1 with position := 2, velocity := 3 } ∧
    (handleReset s).ball2 = { s.ball2 with position := 8, velocity := -2 } ∧
    (handleReset s).balls = ⟨(handleReset s).ball1, (handleReset s).ball2⟩ ∧
    (handleReset s).ball1.mass = s.ball1.mass ∧
    (handleReset s).ball2.mass = s.ball2.mass :=
  ⟨rfl, rfl, rfl, rfl, rfl, rfl, rfl, rfl, rfl⟩

end NeonMomentum
